import Mathlib

/-!
# Verification of the Visual-FX core components

Shallow embedding of the two core subsystems of the Visual-FX repository:

* the canvas particle system of `src/js/particles.js` (`Particle` class,
  `connectParticles`, the configuration object and the shared mouse state), and
* the 3D carousel controller of `src/js/carousel.js` (`Carousel3D` class with
  `prev`/`next`/`goTo`/`handleDragEnd` and its configuration object).

JavaScript numbers are modelled as real numbers on the particle side (where
`Math.sqrt`/`Math.cos`/`Math.sin`/`Math.atan2` occur) and as rationals on the
carousel side (where only ring operations and comparisons occur).  Calls to
`Math.random()` are modelled by explicit real parameters: each draw is a
separate argument of the function that consumes it.  DOM objects, timers and
the rendering context are outside the state; functions that only paint are
modelled by the data they would paint (`Segment`).
-/

noncomputable section

/-- The `config` object of particles.js (lines 17-29): particle count, base
radius, base speed, connection threshold, mouse interaction radius and mouse
force constant.  The color strings are not modelled. -/
structure Config where
  particleCount : ℕ
  particleSize : ℝ
  particleSpeed : ℝ
  connectionDistance : ℝ
  mouseRadius : ℝ
  mouseForce : ℝ

/-- The concrete configuration values of particles.js. -/
def config : Config := ⟨100, 2, 0.5, 120, 150, 0.5⟩

/-- The mouse tracking object of particles.js (lines 32-36): nullable
coordinates plus the interaction radius. -/
structure Mouse where
  x : Option ℝ
  y : Option ℝ
  radius : ℝ

/-- The initial mouse state: both coordinates null (as after `mouseleave`). -/
def mouse : Mouse := ⟨none, none, config.mouseRadius⟩

/-- One particle of the particle field: position, velocity, radius, opacity
(the fields set by the `Particle` constructor). -/
structure Particle where
  x : ℝ
  y : ℝ
  vx : ℝ
  vy : ℝ
  size : ℝ
  opacity : ℝ

instance : Inhabited Particle := ⟨⟨0, 0, 0, 0, 0, 0⟩⟩

/-- Models `Math.atan2 y x`: the argument (angle) of the point `(x, y)`,
taken in `(-π, π]`, with `atan2 0 0 = 0` as in JavaScript. -/
def atan2 (y x : ℝ) : ℝ := Complex.arg ⟨x, y⟩

/-- The `Particle` constructor (particles.js lines 78-92).  `W`/`H` are the
canvas dimensions and `r1` … `r6` are the six `Math.random()` draws, in
source order (position x, position y, velocity x, velocity y, size,
opacity). -/
def Particle.init (cfg : Config) (W H r1 r2 r3 r4 r5 r6 : ℝ) : Particle :=
  { x := r1 * W
    y := r2 * H
    vx := (r3 - 0.5) * cfg.particleSpeed
    vy := (r4 - 0.5) * cfg.particleSpeed
    size := cfg.particleSize * (0.8 + r5 * 0.4)
    opacity := 0.3 + r6 * 0.7 }

/-- `Particle.update` (particles.js lines 95-131): integrate position by
velocity, invert (and jitter) a velocity component when the new position
crosses that edge, clamp both velocity components to `±(particleSpeed * 2)`,
then, when both mouse coordinates are set and the mouse is within
`m.radius` of the (already moved) particle, subtract the repulsion force
from the velocity.  `rx`/`ry` are the two `Math.random()` draws of the edge
jitter. -/
def Particle.update (cfg : Config) (W H : ℝ) (m : Mouse) (rx ry : ℝ)
    (p : Particle) : Particle :=
  let x1 := p.x + p.vx
  let y1 := p.y + p.vy
  let vxB := if x1 < 0 ∨ x1 > W then -p.vx + (rx - 0.5) * 0.1 else p.vx
  let vyB := if y1 < 0 ∨ y1 > H then -p.vy + (ry - 0.5) * 0.1 else p.vy
  let maxSpeed := cfg.particleSpeed * 2
  let vxC := max (-maxSpeed) (min maxSpeed vxB)
  let vyC := max (-maxSpeed) (min maxSpeed vyB)
  match m.x, m.y with
  | some mx, some my =>
    let dx := mx - x1
    let dy := my - y1
    let distance := Real.sqrt (dx * dx + dy * dy)
    if distance < m.radius then
      let force := (m.radius - distance) / m.radius
      let angle := atan2 dy dx
      { p with
          x := x1, y := y1
          vx := vxC - Real.cos angle * force * cfg.mouseForce
          vy := vyC - Real.sin angle * force * cfg.mouseForce }
    else
      { p with x := x1, y := y1, vx := vxC, vy := vyC }
  | _, _ => { p with x := x1, y := y1, vx := vxC, vy := vyC }

/-- One line segment emitted by `connectParticles`: endpoints, the computed
`opacity` value, the `globalAlpha` actually set when stroking, and the
`lineWidth`. -/
structure Segment where
  x1 : ℝ
  y1 : ℝ
  x2 : ℝ
  y2 : ℝ
  opacity : ℝ
  alpha : ℝ
  width : ℝ

/-- The particle-to-particle segment of the inner loop of `connectParticles`
(particles.js lines 163-180): present exactly when the Euclidean distance is
below `connectionDistance`, with `opacity = 1 - distance / connectionDistance`
and stroked with `globalAlpha = opacity * 0.5` at line width 1. -/
def segFor (cfg : Config) (pa pb : Particle) : Option Segment :=
  let dx := pa.x - pb.x
  let dy := pa.y - pb.y
  let distance := Real.sqrt (dx * dx + dy * dy)
  if distance < cfg.connectionDistance then
    some
      { x1 := pa.x, y1 := pa.y, x2 := pb.x, y2 := pb.y
        opacity := 1 - distance / cfg.connectionDistance
        alpha := (1 - distance / cfg.connectionDistance) * 0.5
        width := 1 }
  else none

/-- The segment stroked for a pair of particles within the connection
distance (particles.js lines 168-179), written out as a record: endpoints at
the two particle positions, opacity `1 - distance / connectionDistance`,
stroked alpha `opacity * 0.5`, line width 1. -/
def pairSegment (cfg : Config) (pa pb : Particle) : Segment :=
  { x1 := pa.x, y1 := pa.y, x2 := pb.x, y2 := pb.y
    opacity := 1 - Real.sqrt ((pa.x - pb.x) * (pa.x - pb.x) +
        (pa.y - pb.y) * (pa.y - pb.y)) / cfg.connectionDistance
    alpha := (1 - Real.sqrt ((pa.x - pb.x) * (pa.x - pb.x) +
        (pa.y - pb.y) * (pa.y - pb.y)) / cfg.connectionDistance) * 0.5
    width := 1 }

/-- The particle-to-mouse segment of `connectParticles` (particles.js lines
184-200): requires both mouse coordinates non-null and distance below
`m.radius`; its opacity `1 - distance / m.radius` is also the stroked
`globalAlpha`, at line width 2. -/
def mouseSegFor (m : Mouse) (q : Particle) : Option Segment :=
  match m.x, m.y with
  | some mx, some my =>
    let dx := q.x - mx
    let dy := q.y - my
    let distance := Real.sqrt (dx * dx + dy * dy)
    if distance < m.radius then
      some
        { x1 := q.x, y1 := q.y, x2 := mx, y2 := my
          opacity := 1 - distance / m.radius
          alpha := 1 - distance / m.radius
          width := 2 }
    else none
  | _, _ => none

/-- `connectParticles` (particles.js lines 160-202) as the list of segments it
strokes: for every `i`, the segments to every later particle `j > i` below the
connection distance, followed by the segment to the mouse when applicable. -/
def connectParticles (cfg : Config) (m : Mouse) (ps : List Particle) :
    List Segment :=
  ((List.range ps.length).map (fun i =>
      (((List.range ps.length).filter (fun j => decide (i < j))).filterMap
          (fun j => segFor cfg (ps.getD i default) (ps.getD j default)))
        ++ (mouseSegFor m (ps.getD i default)).toList)).flatten

/-- A particle used as a generic concrete instance in bounds statements. -/
def pW1 : Particle := ⟨50, 50, 1, -1, 2, 1⟩

/-- A particle as built by the constructor on a 10x10 canvas, at
x = 0.1, y = 1, with velocity (-0.2, 0): the random draws are
0.01, 0.1, 0.1, 0.5, 0.5, 0.5. -/
def pC1 : Particle := Particle.init config 10 10 0.01 0.1 0.1 0.5 0.5 0.5

/-- A particle as built by the constructor on a 100x100 canvas, at (50, 50)
with velocity (-0.2, 0). -/
def pD0 : Particle := Particle.init config 100 100 0.5 0.5 0.1 0.5 0.5 0.5

/-- A mouse placed exactly at the position `pD0` occupies after one move. -/
def mC2a : Mouse := ⟨some 49.8, some 50, config.mouseRadius⟩

/-- A mouse placed exactly at the position `pD0` occupies after two moves. -/
def mC2b : Mouse := ⟨some 49.1, some 50, config.mouseRadius⟩

/-- First particle of the concrete connection example, at (0, 0). -/
def pa0 : Particle := ⟨0, 0, 0, 0, 2, 1⟩

/-- Second particle of the concrete connection example, at (5, 0). -/
def pb0 : Particle := ⟨5, 0, 0, 0, 2, 1⟩

/-- A stationary particle at (1, 1), used with a far-away mouse. -/
def pW6 : Particle := ⟨1, 1, 0, 0, 2, 1⟩

end

/-- The `carouselConfig` object of carousel.js (lines 13-23): item width, item
gap, transition duration, autoplay flag and delay, loop flag, drag flag and
drag threshold.  The easing string is not modelled. -/
structure CarouselConfig where
  itemWidth : ℚ
  itemGap : ℚ
  transitionDuration : ℚ
  autoplay : Bool
  autoplayDelay : ℚ
  loop : Bool
  dragEnabled : Bool
  dragThreshold : ℚ
deriving DecidableEq

/-- The concrete configuration values of carousel.js. -/
def carouselConfig : CarouselConfig := ⟨320, 32, 600, false, 5000, true, true, 50⟩

/-- The mutable state of a `Carousel3D` instance (carousel.js lines 29-49):
its configuration, the current index, the item count (`items.length`), the
animating flag and the drag state.  The DOM handles (`container`, `track`,
`items`) and the autoplay timer handle are outside the model. -/
structure Carousel3D where
  config : CarouselConfig
  currentIndex : ℤ
  totalItems : ℕ
  isAnimating : Bool
  isDragging : Bool
  startX : ℚ
  currentX : ℚ
  dragDistance : ℚ
deriving DecidableEq

/-- `updateCarousel` (carousel.js lines 132-161): when animating, it starts a
track animation and sets `isAnimating`; the DOM effects (track transform,
item states, progress bar) carry no modelled state. -/
def Carousel3D.updateCarousel (animate : Bool) (s : Carousel3D) : Carousel3D :=
  if animate then { s with isAnimating := true } else s

/-- The `onfinish` handler of the track animation (carousel.js lines 147-150):
it clears the animating flag once the transition completes. -/
def Carousel3D.finishTransition (s : Carousel3D) : Carousel3D :=
  { s with isAnimating := false }

/-- `prev` (carousel.js lines 91-103): no-op while animating; otherwise
decrement the index, and when it drops below 0 wrap to `totalItems - 1` if
looping, else reset to 0; then start the transition. -/
def Carousel3D.prev (s : Carousel3D) : Carousel3D :=
  if s.isAnimating then s
  else
    let i0 := s.currentIndex - 1
    let i1 := if i0 < 0 then (if s.config.loop then (s.totalItems : ℤ) - 1 else 0) else i0
    Carousel3D.updateCarousel true { s with currentIndex := i1 }

/-- `next` (carousel.js lines 106-118): no-op while animating; otherwise
increment the index, and when it reaches `totalItems` wrap to 0 if looping,
else reset to `totalItems - 1`; then start the transition. -/
def Carousel3D.next (s : Carousel3D) : Carousel3D :=
  if s.isAnimating then s
  else
    let i0 := s.currentIndex + 1
    let i1 := if i0 ≥ (s.totalItems : ℤ) then (if s.config.loop then 0 else (s.totalItems : ℤ) - 1) else i0
    Carousel3D.updateCarousel true { s with currentIndex := i1 }

/-- `goTo` (carousel.js lines 121-127): no-op while animating or when the
target equals the current index; otherwise clamp the target to
`[0, totalItems - 1]` and start the transition. -/
def Carousel3D.goTo (i : ℤ) (s : Carousel3D) : Carousel3D :=
  if s.isAnimating ∨ i = s.currentIndex then s
  else
    Carousel3D.updateCarousel true
      { s with currentIndex := max 0 (min i ((s.totalItems : ℤ) - 1)) }

/-- `handleDragEnd` (carousel.js lines 269-295): no-op unless dragging;
otherwise stop dragging, navigate when the absolute drag distance strictly
exceeds the threshold (positive drags go to `prev`, the rest to `next`),
else snap back via `updateCarousel`; finally reset the drag distance. -/
def Carousel3D.handleDragEnd (s : Carousel3D) : Carousel3D :=
  if !s.isDragging then s
  else
    let s1 := { s with isDragging := false }
    let s2 :=
      if |s1.dragDistance| > s1.config.dragThreshold then
        (if s1.dragDistance > 0 then s1.prev else s1.next)
      else
        Carousel3D.updateCarousel true s1
    { s2 with dragDistance := 0 }

/-- A five-item carousel at index 0 with the stock (looping) configuration. -/
def csFive : Carousel3D := ⟨carouselConfig, 0, 5, false, false, 0, 0, 0⟩

/-- The stock configuration with looping disabled. -/
def cfgNoLoop : CarouselConfig := { carouselConfig with loop := false }

/-- A five-item carousel at index 0 with looping disabled. -/
def csFiveNoLoop : Carousel3D := ⟨cfgNoLoop, 0, 5, false, false, 0, 0, 0⟩

/-- A five-item carousel at index 0 at the end of a +60px drag. -/
def drag60 : Carousel3D := ⟨carouselConfig, 0, 5, false, true, 0, 60, 60⟩

/-- A five-item carousel at index 0 at the end of a +40px drag. -/
def drag40 : Carousel3D := ⟨carouselConfig, 0, 5, false, true, 0, 40, 40⟩

/-- A carousel constructed over zero items, with the stock configuration. -/
def cs0 : Carousel3D := ⟨carouselConfig, 0, 0, false, false, 0, 0, 0⟩

/-! ## Helper lemmas -/

/-- Clamping any value to `[-M, M]` yields an absolute value at most `M`. -/
theorem clamp_abs_le (M v : ℝ) (hM : 0 ≤ M) : |max (-M) (min M v)| ≤ M := by
  rw [abs_le]
  exact ⟨le_max_left _ _, max_le (by linarith) (min_le_left _ _)⟩

/-- A clamped value, perturbed by a product of a factor of absolute value at
most one, a factor in `[0, 1]` and a nonnegative constant `k`, stays within
`M + k` in absolute value. -/
theorem clamp_sub_kick_abs_le (M k c f v : ℝ) (hM : 0 ≤ M) (hk : 0 ≤ k)
    (hc : |c| ≤ 1) (hf0 : 0 ≤ f) (hf1 : f ≤ 1) :
    |max (-M) (min M v) - c * f * k| ≤ M + k := by
  have h1 : |max (-M) (min M v)| ≤ M := clamp_abs_le M v hM
  have h2 : |c * f * k| ≤ k := by
    rw [abs_mul, abs_mul, abs_of_nonneg hf0, abs_of_nonneg hk]
    have hcf : |c| * f ≤ 1 := mul_le_one₀ hc hf0 hf1
    calc |c| * f * k ≤ 1 * k := mul_le_mul_of_nonneg_right hcf hk
      _ = k := one_mul k
  have h3 : |max (-M) (min M v) - c * f * k| ≤ |max (-M) (min M v)| + |c * f * k| :=
    abs_sub _ _
  linarith

/-- The JavaScript convention `Math.atan2 0 0 = 0`, inherited from the
complex argument. -/
theorem atan2_zero_zero : atan2 0 0 = 0 := by
  have h : (⟨0, 0⟩ : ℂ) = 0 := Complex.ext (by simp) (by simp)
  rw [atan2, h, Complex.arg_zero]

/-- A step moves each position coordinate by exactly the pre-step velocity
component, in every mouse state and for every jitter draw. -/
theorem update_position (cfg : Config) (W H : ℝ) (m : Mouse) (rx ry : ℝ)
    (p : Particle) :
    (Particle.update cfg W H m rx ry p).x = p.x + p.vx ∧
    (Particle.update cfg W H m rx ry p).y = p.y + p.vy := by
  obtain ⟨mx, my, r⟩ := m
  cases mx <;> cases my <;> simp only [Particle.update] <;>
    first
      | exact ⟨trivial, trivial⟩
      | (split_ifs <;> exact ⟨rfl, rfl⟩)

/-! ## Claim C10 -/

/-- C10: a `step()`/`update()` call leaves the particle's size and opacity
unchanged, for every particle, mouse state and pair of jitter draws; only
position and velocity are mutated. -/
theorem update_preserves_size_opacity (cfg : Config) (W H : ℝ) (m : Mouse)
    (rx ry : ℝ) (p : Particle) :
    (Particle.update cfg W H m rx ry p).size = p.size ∧
    (Particle.update cfg W H m rx ry p).opacity = p.opacity := by
  obtain ⟨mx, my, r⟩ := m
  cases mx <;> cases my <;> simp only [Particle.update] <;>
    first
      | exact ⟨trivial, trivial⟩
      | (split_ifs <;> exact ⟨rfl, rfl⟩)

/-! ## Claim C1 -/

/-- C1 (amended): edge handling only inverts velocity and never clamps the
position, so the position is not confined to the canvas; what holds is that a
single `step()` from an in-bounds position with both velocity components
bounded by `particleSpeed * 2 + mouseForce` moves each coordinate by exactly
the pre-step velocity and hence stays within the canvas bounds extended by
`particleSpeed * 2 + mouseForce` on every side. -/
theorem step_position_displacement_bound (cfg : Config) (W H : ℝ) (m : Mouse)
    (rx ry : ℝ) (p : Particle)
    (hx0 : 0 ≤ p.x) (hxW : p.x ≤ W) (hy0 : 0 ≤ p.y) (hyH : p.y ≤ H)
    (hvx : |p.vx| ≤ cfg.particleSpeed * 2 + cfg.mouseForce)
    (hvy : |p.vy| ≤ cfg.particleSpeed * 2 + cfg.mouseForce) :
    ((Particle.update cfg W H m rx ry p).x = p.x + p.vx ∧
     (Particle.update cfg W H m rx ry p).y = p.y + p.vy) ∧
    (-(cfg.particleSpeed * 2 + cfg.mouseForce) ≤ (Particle.update cfg W H m rx ry p).x ∧
     (Particle.update cfg W H m rx ry p).x ≤ W + (cfg.particleSpeed * 2 + cfg.mouseForce)) ∧
    (-(cfg.particleSpeed * 2 + cfg.mouseForce) ≤ (Particle.update cfg W H m rx ry p).y ∧
     (Particle.update cfg W H m rx ry p).y ≤ H + (cfg.particleSpeed * 2 + cfg.mouseForce)) := by
  obtain ⟨hex, hey⟩ := update_position cfg W H m rx ry p
  rw [abs_le] at hvx hvy
  refine ⟨⟨hex, hey⟩, ⟨?_, ?_⟩, ⟨?_, ?_⟩⟩
  · rw [hex]; linarith [hvx.1]
  · rw [hex]; linarith [hvx.2]
  · rw [hey]; linarith [hvy.1]
  · rw [hey]; linarith [hvy.2]

/-- Witness for C1 (amended) at the stock configuration on a 100x100 canvas. -/
theorem step_position_displacement_bound_witness :
    (0 ≤ pW1.x ∧ pW1.x ≤ 100 ∧ 0 ≤ pW1.y ∧ pW1.y ≤ 100 ∧
     |pW1.vx| ≤ config.particleSpeed * 2 + config.mouseForce ∧
     |pW1.vy| ≤ config.particleSpeed * 2 + config.mouseForce) ∧
    (-(config.particleSpeed * 2 + config.mouseForce) ≤
       (Particle.update config 100 100 mouse 0.5 0.5 pW1).x ∧
     (Particle.update config 100 100 mouse 0.5 0.5 pW1).x ≤
       100 + (config.particleSpeed * 2 + config.mouseForce)) := by
  have h1 : (0:ℝ) ≤ pW1.x := by norm_num [pW1]
  have h2 : pW1.x ≤ (100:ℝ) := by norm_num [pW1]
  have h3 : (0:ℝ) ≤ pW1.y := by norm_num [pW1]
  have h4 : pW1.y ≤ (100:ℝ) := by norm_num [pW1]
  have h5 : |pW1.vx| ≤ config.particleSpeed * 2 + config.mouseForce := by
    norm_num [pW1, config]
  have h6 : |pW1.vy| ≤ config.particleSpeed * 2 + config.mouseForce := by
    norm_num [pW1, config]
  exact ⟨⟨h1, h2, h3, h4, h5, h6⟩,
    (step_position_displacement_bound config 100 100 mouse 0.5 0.5 pW1
      h1 h2 h3 h4 h5 h6).2.1⟩

/-- C1 counterexample: the particle `pC1`, freshly built by the constructor on
a 10x10 canvas and lying inside the canvas, has `x = -0.1 < 0` after a single
`step()` with the mouse absent: the position does not remain within canvas
bounds. -/
theorem position_escapes_canvas :
    (0 ≤ pC1.x ∧ pC1.x ≤ 10 ∧ 0 ≤ pC1.y ∧ pC1.y ≤ 10) ∧
    (Particle.update config 10 10 mouse 0.5 0.5 pC1).x < 0 := by
  constructor
  · refine ⟨?_, ?_, ?_, ?_⟩ <;> norm_num [pC1, Particle.init, config]
  · have hx := (update_position config 10 10 mouse 0.5 0.5 pC1).1
    rw [hx]
    norm_num [pC1, Particle.init, config]

/-! ## Claim C2 -/

/-- C2 (amended): the clamp to `±(particleSpeed * 2)` is applied before the
mouse force, which can then add up to `mouseForce` to a component, so after
every step `|vx|` and `|vy|` are bounded by `particleSpeed * 2 + mouseForce`
(and only by that), for every particle, mouse state and jitter draw. -/
theorem step_velocity_soft_bound (cfg : Config) (W H : ℝ) (m : Mouse)
    (rx ry : ℝ) (p : Particle)
    (hs : 0 ≤ cfg.particleSpeed) (hf : 0 ≤ cfg.mouseForce) :
    |(Particle.update cfg W H m rx ry p).vx| ≤ cfg.particleSpeed * 2 + cfg.mouseForce ∧
    |(Particle.update cfg W H m rx ry p).vy| ≤ cfg.particleSpeed * 2 + cfg.mouseForce := by
  have hM : (0:ℝ) ≤ cfg.particleSpeed * 2 := by linarith
  obtain ⟨mx, my, r⟩ := m
  cases mx with
  | none =>
    simp only [Particle.update]
    exact ⟨(clamp_abs_le _ _ hM).trans (by linarith),
           (clamp_abs_le _ _ hM).trans (by linarith)⟩
  | some a =>
    cases my with
    | none =>
      simp only [Particle.update]
      exact ⟨(clamp_abs_le _ _ hM).trans (by linarith),
             (clamp_abs_le _ _ hM).trans (by linarith)⟩
    | some b =>
      simp only [Particle.update]
      rcases lt_or_le (Real.sqrt ((a - (p.x + p.vx)) * (a - (p.x + p.vx)) +
          (b - (p.y + p.vy)) * (b - (p.y + p.vy)))) r with hd | hd
      · rw [if_pos hd]
        have hd0 : (0:ℝ) ≤ Real.sqrt ((a - (p.x + p.vx)) * (a - (p.x + p.vx)) +
            (b - (p.y + p.vy)) * (b - (p.y + p.vy))) := Real.sqrt_nonneg _
        have hr : (0:ℝ) < r := lt_of_le_of_lt hd0 hd
        have hf0 : (0:ℝ) ≤ (r - Real.sqrt ((a - (p.x + p.vx)) * (a - (p.x + p.vx)) +
            (b - (p.y + p.vy)) * (b - (p.y + p.vy)))) / r :=
          div_nonneg (by linarith) hr.le
        have hf1 : (r - Real.sqrt ((a - (p.x + p.vx)) * (a - (p.x + p.vx)) +
            (b - (p.y + p.vy)) * (b - (p.y + p.vy)))) / r ≤ 1 := by
          rw [div_le_one hr]; linarith
        exact ⟨clamp_sub_kick_abs_le _ _ _ _ _ hM hf (Real.abs_cos_le_one _) hf0 hf1,
               clamp_sub_kick_abs_le _ _ _ _ _ hM hf (Real.abs_sin_le_one _) hf0 hf1⟩
      · rw [if_neg (not_lt.mpr hd)]
        exact ⟨(clamp_abs_le _ _ hM).trans (by linarith),
               (clamp_abs_le _ _ hM).trans (by linarith)⟩

/-- Witness for C2 (amended) at the stock configuration. -/
theorem step_velocity_soft_bound_witness :
    (0 ≤ config.particleSpeed ∧ 0 ≤ config.mouseForce) ∧
    |(Particle.update config 100 100 mouse 0.5 0.5 pW1).vx| ≤
      config.particleSpeed * 2 + config.mouseForce := by
  have h1 : (0:ℝ) ≤ config.particleSpeed := by norm_num [config]
  have h2 : (0:ℝ) ≤ config.mouseForce := by norm_num [config]
  exact ⟨⟨h1, h2⟩, (step_velocity_soft_bound config 100 100 mouse 0.5 0.5 pW1 h1 h2).1⟩

/-- C2 counterexample: starting from the constructor state `pD0` (velocity
(-0.2, 0)) and placing the mouse at the particle's moved position on two
consecutive steps, the second step ends with `vx = -1.2`, violating the
claimed bound `|vx| ≤ particleSpeed * 2 = 1`: the clamp runs before the
mouse force is applied. -/
theorem velocity_exceeds_claimed_clamp :
    ¬ |(Particle.update config 100 100 mC2b 0.5 0.5
          (Particle.update config 100 100 mC2a 0.5 0.5 pD0)).vx| ≤
        config.particleSpeed * 2 := by
  have h0 : pD0 = ⟨50, 50, -0.2, 0, 2, 0.65⟩ := by
    simp only [pD0, Particle.init, config]
    norm_num
  have h1 : Particle.update config 100 100 mC2a 0.5 0.5 pD0 =
      ⟨49.8, 50, -0.7, 0, 2, 0.65⟩ := by
    rw [h0]
    simp only [Particle.update, mC2a, config]
    norm_num [atan2_zero_zero, min_def, max_def]
  have h2 : Particle.update config 100 100 mC2b 0.5 0.5
        (⟨49.8, 50, -0.7, 0, 2, 0.65⟩ : Particle) =
      ⟨49.1, 50, -1.2, 0, 2, 0.65⟩ := by
    simp only [Particle.update, mC2b, config]
    norm_num [atan2_zero_zero, min_def, max_def]
  rw [h1, h2]
  norm_num [config]
  rw [abs_of_nonneg (by norm_num : (0:ℝ) ≤ 6 / 5)]
  norm_num

/-! ## Claim C3 -/

/-- C3: for every unordered pair `i < j` of particles at Euclidean distance
`d`, when `d < connectionDistance` the pair yields exactly the segment
`pairSegment` between the two positions, its computed opacity is
`1 - d / connectionDistance`, and that segment occurs in the
`connectParticles` output; when `d ≥ connectionDistance` the pair yields no
segment. -/
theorem connection_segment_opacity (cfg : Config) (m : Mouse)
    (ps : List Particle) (i j : ℕ) (pa pb : Particle) (d : ℝ)
    (hij : i < j) (hj : j < ps.length)
    (hpa : ps.getD i default = pa) (hpb : ps.getD j default = pb)
    (hd : d = Real.sqrt ((pa.x - pb.x) * (pa.x - pb.x) +
      (pa.y - pb.y) * (pa.y - pb.y))) :
    (d < cfg.connectionDistance →
      segFor cfg pa pb = some (pairSegment cfg pa pb) ∧
      (pairSegment cfg pa pb).opacity = 1 - d / cfg.connectionDistance ∧
      pairSegment cfg pa pb ∈ connectParticles cfg m ps) ∧
    (cfg.connectionDistance ≤ d → segFor cfg pa pb = none) := by
  subst hpa
  subst hpb
  subst hd
  constructor
  · intro hlt
    have hseg : segFor cfg (ps.getD i default) (ps.getD j default) =
        some (pairSegment cfg (ps.getD i default) (ps.getD j default)) := by
      simp only [segFor, pairSegment]
      rw [if_pos hlt]
    refine ⟨hseg, rfl, ?_⟩
    simp only [connectParticles]
    refine List.mem_flatten.mpr
      ⟨_, List.mem_map.mpr ⟨i, List.mem_range.mpr (hij.trans hj), rfl⟩, ?_⟩
    refine List.mem_append_left _ ?_
    refine List.mem_filterMap.mpr ⟨j, ?_, hseg⟩
    exact List.mem_filter.mpr ⟨List.mem_range.mpr hj, by simpa using hij⟩
  · intro hge
    simp only [segFor]
    rw [if_neg (not_lt.mpr hge)]

/-- Witness for C3: the particles at (0, 0) and (5, 0) are at distance 5,
below the threshold 120, and the output of `connectParticles` contains their
segment with opacity `1 - 5 / 120`. -/
theorem connection_segment_opacity_witness :
    ((0:ℕ) < 1 ∧ 1 < ([pa0, pb0] : List Particle).length ∧
     ([pa0, pb0] : List Particle).getD 0 default = pa0 ∧
     ([pa0, pb0] : List Particle).getD 1 default = pb0 ∧
     (5:ℝ) = Real.sqrt ((pa0.x - pb0.x) * (pa0.x - pb0.x) +
       (pa0.y - pb0.y) * (pa0.y - pb0.y)) ∧
     (5:ℝ) < config.connectionDistance) ∧
    ((pairSegment config pa0 pb0).opacity = 1 - 5 / config.connectionDistance ∧
     pairSegment config pa0 pb0 ∈ connectParticles config mouse [pa0, pb0]) := by
  have hd : (5:ℝ) = Real.sqrt ((pa0.x - pb0.x) * (pa0.x - pb0.x) +
      (pa0.y - pb0.y) * (pa0.y - pb0.y)) := by
    have harg : ((pa0.x - pb0.x) * (pa0.x - pb0.x) +
        (pa0.y - pb0.y) * (pa0.y - pb0.y)) = 5 ^ 2 := by
      norm_num [pa0, pb0]
    rw [harg, Real.sqrt_sq (by norm_num : (0:ℝ) ≤ 5)]
  have hlt : (5:ℝ) < config.connectionDistance := by norm_num [config]
  have h := (connection_segment_opacity config mouse [pa0, pb0] 0 1 pa0 pb0 5
    (by norm_num) (by simp) (by simp) (by simp) hd).1 hlt
  exact ⟨⟨by norm_num, by simp, by simp, by simp, hd, hlt⟩, h.2.1, h.2.2⟩

/-! ## Claim C6 -/

/-- C6: a step with both mouse coordinates null produces exactly the same
particle as a step with the mouse present at any distance at least the
influence radius from the particle's moved position (the position at which
the code measures the distance), and under the same far-mouse condition for
every particle the segment list of `connectParticles` is the same as with
the mouse absent. -/
theorem mouse_absent_equals_mouse_far (cfg : Config) (W H rx ry mx my r : ℝ)
    (p : Particle) (ps : List Particle)
    (h1 : r ≤ Real.sqrt ((mx - (p.x + p.vx)) * (mx - (p.x + p.vx)) +
      (my - (p.y + p.vy)) * (my - (p.y + p.vy))))
    (h2 : ∀ q ∈ ps, r ≤ Real.sqrt ((q.x - mx) * (q.x - mx) +
      (q.y - my) * (q.y - my))) :
    Particle.update cfg W H ⟨some mx, some my, r⟩ rx ry p =
      Particle.update cfg W H ⟨none, none, r⟩ rx ry p ∧
    connectParticles cfg ⟨some mx, some my, r⟩ ps =
      connectParticles cfg ⟨none, none, r⟩ ps := by
  constructor
  · simp only [Particle.update]
    rw [if_neg (not_lt.mpr h1)]
  · simp only [connectParticles]
    congr 1
    apply List.map_congr_left
    intro k hk
    congr 1
    have hk' : k < ps.length := List.mem_range.mp hk
    have hq : ps.getD k default ∈ ps := by
      rw [List.getD_eq_getElem ps default hk']
      exact List.getElem_mem hk'
    have hfar := h2 _ hq
    simp only [mouseSegFor]
    rw [if_neg (not_lt.mpr hfar)]

/-- Witness for C6: the stationary particle `pW6` at (1, 1) and a mouse at
(500, 1), which is 499 pixels away, behave as if the mouse were absent. -/
theorem mouse_absent_equals_mouse_far_witness :
    (config.mouseRadius ≤
       Real.sqrt ((500 - (pW6.x + pW6.vx)) * (500 - (pW6.x + pW6.vx)) +
         (1 - (pW6.y + pW6.vy)) * (1 - (pW6.y + pW6.vy))) ∧
     (∀ q ∈ [pW6], config.mouseRadius ≤
       Real.sqrt ((q.x - 500) * (q.x - 500) + (q.y - 1) * (q.y - 1)))) ∧
    Particle.update config 100 100 ⟨some 500, some 1, config.mouseRadius⟩ 0.5 0.5 pW6 =
      Particle.update config 100 100 ⟨none, none, config.mouseRadius⟩ 0.5 0.5 pW6 ∧
    connectParticles config ⟨some 500, some 1, config.mouseRadius⟩ [pW6] =
      connectParticles config ⟨none, none, config.mouseRadius⟩ [pW6] := by
  have h1 : config.mouseRadius ≤
      Real.sqrt ((500 - (pW6.x + pW6.vx)) * (500 - (pW6.x + pW6.vx)) +
        (1 - (pW6.y + pW6.vy)) * (1 - (pW6.y + pW6.vy))) := by
    have harg : ((500:ℝ) - (pW6.x + pW6.vx)) * (500 - (pW6.x + pW6.vx)) +
        (1 - (pW6.y + pW6.vy)) * (1 - (pW6.y + pW6.vy)) = 499 ^ 2 := by
      norm_num [pW6]
    rw [harg, Real.sqrt_sq (by norm_num : (0:ℝ) ≤ 499)]
    norm_num [config]
  have h2 : ∀ q ∈ [pW6], config.mouseRadius ≤
      Real.sqrt ((q.x - 500) * (q.x - 500) + (q.y - 1) * (q.y - 1)) := by
    intro q hq
    rw [List.mem_singleton] at hq
    subst hq
    have harg : (pW6.x - (500:ℝ)) * (pW6.x - 500) +
        (pW6.y - 1) * (pW6.y - 1) = 499 ^ 2 := by
      norm_num [pW6]
    rw [harg, Real.sqrt_sq (by norm_num : (0:ℝ) ≤ 499)]
    norm_num [config]
  exact ⟨⟨h1, h2⟩,
    mouse_absent_equals_mouse_far config 100 100 0.5 0.5 500 1
      config.mouseRadius pW6 [pW6] h1 h2⟩

/-! ## Claim C4 -/

/-- C4 (amended): with zero carousel items none of the navigation operations
throws (all are total state transformers), and `goTo` always leaves the index
at 0; but the controller is not fully inert: from index 0, `prev()` with
looping enabled sets the index to `totalItems - 1 = -1` (and `next()` keeps
it at 0), while with looping disabled `next()` sets it to `-1` (and `prev()`
keeps it at 0). -/
theorem zero_items_navigation (s : Carousel3D) (i : ℤ)
    (h0 : s.totalItems = 0) (hc : s.currentIndex = 0)
    (ha : s.isAnimating = false) :
    (s.goTo i).currentIndex = 0 ∧
    (s.config.loop = true →
      (s.next).currentIndex = 0 ∧ (s.prev).currentIndex = -1) ∧
    (s.config.loop = false →
      (s.next).currentIndex = -1 ∧ (s.prev).currentIndex = 0) := by
  refine ⟨?_, fun hl => ⟨?_, ?_⟩, fun hl => ⟨?_, ?_⟩⟩
  · simp only [Carousel3D.goTo, Carousel3D.updateCarousel, h0, hc, ha]
    split_ifs <;> simp_all
  · simp only [Carousel3D.next, Carousel3D.updateCarousel, h0, hc, ha, hl]
    split_ifs <;> simp_all
  · simp only [Carousel3D.prev, Carousel3D.updateCarousel, h0, hc, ha, hl]
    split_ifs <;> simp_all
  · simp only [Carousel3D.next, Carousel3D.updateCarousel, h0, hc, ha, hl]
    split_ifs <;> simp_all
  · simp only [Carousel3D.prev, Carousel3D.updateCarousel, h0, hc, ha, hl]
    split_ifs <;> simp_all

/-- Witness for C4 (amended) on the concrete zero-item carousel `cs0`. -/
theorem zero_items_navigation_witness :
    (cs0.totalItems = 0 ∧ cs0.currentIndex = 0 ∧ cs0.isAnimating = false) ∧
    (cs0.goTo 7).currentIndex = 0 ∧ (cs0.prev).currentIndex = -1 := by
  refine ⟨⟨rfl, rfl, rfl⟩, (zero_items_navigation cs0 7 rfl rfl rfl).1, ?_⟩
  exact ((zero_items_navigation cs0 7 rfl rfl rfl).2.1 rfl).2

/-- C4 counterexample: on the zero-item carousel `cs0` (stock looping
configuration, index 0, idle), `prev()` does not leave the state unchanged:
it changes `currentIndex` from 0 to -1. -/
theorem zero_items_prev_changes_index :
    cs0.totalItems = 0 ∧ cs0.prev ≠ cs0 ∧ (cs0.prev).currentIndex = -1 := by
  decide

/-! ## Claim C5 -/

/-- C5: `next`, `prev` and `goTo` all preserve the invariant that
`currentIndex` is a valid array index (`0 ≤ currentIndex < totalItems`),
whether or not looping is enabled (with looping disabled the same range is
exactly the clamp range `[0, totalItems - 1]`). -/
theorem navigation_preserves_index_range (s : Carousel3D) (i : ℤ)
    (h : 0 ≤ s.currentIndex ∧ s.currentIndex < (s.totalItems : ℤ)) :
    (0 ≤ (s.next).currentIndex ∧ (s.next).currentIndex < (s.totalItems : ℤ)) ∧
    (0 ≤ (s.prev).currentIndex ∧ (s.prev).currentIndex < (s.totalItems : ℤ)) ∧
    (0 ≤ (s.goTo i).currentIndex ∧ (s.goTo i).currentIndex < (s.totalItems : ℤ)) := by
  obtain ⟨h0, h1⟩ := h
  refine ⟨?_, ?_, ?_⟩ <;>
    simp only [Carousel3D.next, Carousel3D.prev, Carousel3D.goTo,
      Carousel3D.updateCarousel] <;>
    split_ifs <;> simp_all <;> omega

/-- Witness for C5 on the five-item carousel `csFive` with target index 2. -/
theorem navigation_preserves_index_range_witness :
    (0 ≤ csFive.currentIndex ∧ csFive.currentIndex < (csFive.totalItems : ℤ)) ∧
    (0 ≤ (csFive.prev).currentIndex ∧
      (csFive.prev).currentIndex < (csFive.totalItems : ℤ)) := by
  have h : 0 ≤ csFive.currentIndex ∧ csFive.currentIndex < (csFive.totalItems : ℤ) := by
    decide
  exact ⟨h, (navigation_preserves_index_range csFive 2 h).2.1⟩

/-! ## Claim C8 -/

/-- C8: when not animating, `prev()` retreats the index by one; at index 0 it
wraps to `totalItems - 1` when looping is enabled and stays clamped at 0 when
not; concretely, on a five-item carousel at index 0, `prev()` yields index 4
with looping and index 0 without. -/
theorem prev_wraps_or_clamps (s : Carousel3D) (ha : s.isAnimating = false) :
    (0 < s.currentIndex → (s.prev).currentIndex = s.currentIndex - 1) ∧
    (s.currentIndex = 0 →
      (s.prev).currentIndex = if s.config.loop then (s.totalItems : ℤ) - 1 else 0) ∧
    (csFive.prev).currentIndex = 4 ∧
    (csFiveNoLoop.prev).currentIndex = 0 := by
  refine ⟨fun h => ?_, fun h => ?_, by decide, by decide⟩
  · simp only [Carousel3D.prev, Carousel3D.updateCarousel, ha]
    split_ifs <;> simp_all <;> omega
  · simp only [Carousel3D.prev, Carousel3D.updateCarousel, ha, h]
    split_ifs <;> simp_all

/-- Witness for C8 on the five-item looping carousel `csFive` at index 0. -/
theorem prev_wraps_or_clamps_witness :
    csFive.isAnimating = false ∧ (csFive.prev).currentIndex = 4 :=
  ⟨rfl, (prev_wraps_or_clamps csFive rfl).2.2.1⟩

/-! ## Claim C9 -/

/-- C9: for every valid index `i`, calling `goTo i` while not animating and
letting the started transition finish leaves `currentIndex = i` and the
animating flag false. -/
theorem goTo_settles_at_index (s : Carousel3D) (i : ℤ)
    (ha : s.isAnimating = false) (h0 : 0 ≤ i) (h1 : i < (s.totalItems : ℤ)) :
    ((s.goTo i).finishTransition).currentIndex = i ∧
    ((s.goTo i).finishTransition).isAnimating = false := by
  refine ⟨?_, rfl⟩
  simp only [Carousel3D.goTo, Carousel3D.finishTransition,
    Carousel3D.updateCarousel, ha]
  by_cases hi : i = s.currentIndex
  · simp [hi]
  · simp only [hi, or_false, Bool.false_eq_true, if_false]
    rw [min_eq_left (by omega), max_eq_right h0]
    simp

/-- Witness for C9: `goTo 3` on the idle five-item carousel `csFive`. -/
theorem goTo_settles_at_index_witness :
    (csFive.isAnimating = false ∧ (0:ℤ) ≤ 3 ∧ (3:ℤ) < (csFive.totalItems : ℤ)) ∧
    ((csFive.goTo 3).finishTransition).currentIndex = 3 ∧
    ((csFive.goTo 3).finishTransition).isAnimating = false := by
  exact ⟨⟨rfl, by decide, by decide⟩,
    goTo_settles_at_index csFive 3 rfl (by decide) (by decide)⟩

/-! ## Claim C7 -/

/-- C7: on drag end (while dragging, with a nonnegative threshold),
navigation fires only when the absolute drag distance strictly exceeds the
threshold — positive drags become `prev`, negative drags become `next` —
while a distance of at most the threshold snaps back without changing the
index; concretely, a +60px drag against threshold 50 wraps the five-item
carousel from index 0 to 4 via `prev`, and a +40px drag leaves index 0. -/
theorem drag_end_threshold_behavior (s : Carousel3D)
    (hd : s.isDragging = true) (ht : 0 ≤ s.config.dragThreshold) :
    (|s.dragDistance| ≤ s.config.dragThreshold →
      s.handleDragEnd =
        { Carousel3D.updateCarousel true { s with isDragging := false } with
            dragDistance := 0 } ∧
      (s.handleDragEnd).currentIndex = s.currentIndex) ∧
    (s.config.dragThreshold < s.dragDistance →
      s.handleDragEnd =
        { Carousel3D.prev { s with isDragging := false } with
            dragDistance := 0 }) ∧
    (s.dragDistance < -s.config.dragThreshold →
      s.handleDragEnd =
        { Carousel3D.next { s with isDragging := false } with
            dragDistance := 0 }) ∧
    (drag60.handleDragEnd).currentIndex = 4 ∧
    (drag40.handleDragEnd).currentIndex = 0 := by
  refine ⟨fun hle => ?_, fun hpos => ?_, fun hneg => ?_, by decide, by decide⟩
  · simp only [Carousel3D.handleDragEnd, hd, Bool.not_true, Bool.false_eq_true,
      if_false]
    split_ifs with hgt hp
    · exact absurd hgt (not_lt.mpr hle)
    · exact absurd hgt (not_lt.mpr hle)
    · exact ⟨rfl, rfl⟩
  · have h1 : s.config.dragThreshold < |s.dragDistance| :=
      lt_of_lt_of_le hpos (le_abs_self _)
    have h2 : 0 < s.dragDistance := lt_of_le_of_lt ht hpos
    simp only [Carousel3D.handleDragEnd, hd, Bool.not_true, Bool.false_eq_true,
      if_false]
    split_ifs with hgt
    · rfl
    · exact absurd h1 hgt
  · have h1 : s.config.dragThreshold < |s.dragDistance| :=
      lt_of_lt_of_le (by linarith) (neg_le_abs _)
    have h2 : ¬ (0 < s.dragDistance) := by
      rw [not_lt]
      linarith
    simp only [Carousel3D.handleDragEnd, hd, Bool.not_true, Bool.false_eq_true,
      if_false]
    split_ifs with hgt
    · rfl
    · exact absurd h1 hgt

/-- Witness for C7: the +60px drag state `drag60` with threshold 50. -/
theorem drag_end_threshold_behavior_witness :
    (drag60.isDragging = true ∧ 0 ≤ drag60.config.dragThreshold) ∧
    (drag60.handleDragEnd).currentIndex = 4 :=
  ⟨⟨rfl, by decide⟩,
    (drag_end_threshold_behavior drag60 rfl (by decide)).2.2.2.1⟩
